import Mathlib

/-!
A shallow embedding of the drone waypoint capture-and-replay system
(`test_keyboard.py`: `RealTimeDroneController`), together with theorems about
its movement recorder, waypoint builder and session serializer.

Conventions of the embedding:
* machine time, distances and speeds are rationals; headings are integers
  (the Python code parses the telemetry yaw with `int(...)`);
* environment effects (sampled yaw, clock readings, fresh uuid strings,
  timestamps, whether a vehicle command raises) are explicit parameters;
* vehicle commands sent over the wire are collected in an output list;
* fallible file output is a small state machine over an abstract file state.
-/

namespace DroneNav

/-- Movement directions used by the controller (`start_movement`'s
`direction` argument). -/
inductive Direction where
  | forward
  | backward
  | left
  | right
  | up
  | down
  | clockwise
  | anticlockwise
deriving DecidableEq

/-- The `movement_type` strings accepted by `start_movement`. -/
inductive MovementType where
  | move
  | lift
  | rotate
deriving DecidableEq

/-- The in-flight movement record built at `test_keyboard.py:157-162`
(`self.current_movement = {...}`). -/
structure Movement where
  type : MovementType
  direction : Direction
  start_time : ℚ
  start_yaw : ℤ
deriving DecidableEq

/-- The immutable movement event created at `test_keyboard.py:238-245`. -/
structure MovementEvent where
  id : String
  type : MovementType
  direction : Direction
  distance : ℚ
  start_yaw : ℤ
  timestamp : String
deriving DecidableEq

/-- A waypoint as built by `mark_waypoint` (`test_keyboard.py:265-269`). -/
structure Waypoint where
  id : String
  name : String
  movements_to_here : List MovementEvent
deriving DecidableEq

/-- The recorder state of `RealTimeDroneController` (`__init__`,
`test_keyboard.py:24-31`): the single active-movement slot, the
`add_movement` flag, the waypoint list, the pending movement cluster and the
waypoint counter. -/
structure ControllerState where
  current_movement : Option Movement
  add_movement : Bool
  waypoints : List Waypoint
  current_waypoint_movements : List MovementEvent
  waypoint_counter : Nat
deriving DecidableEq

/-- Commands sent to the vehicle: `send_rc_control(lr, fb, ud, yw)` and the
text queries of `get_drone_state`. -/
inductive Cmd where
  | rc (lr fb ud yw : ℤ)
  | query (q : String)
deriving DecidableEq

/-- `self.movement_speed = 30` (cm/s), `test_keyboard.py:20`. -/
def movement_speed : ℤ := 30

/-- `self.rotation_speed = 30` (deg/s), `test_keyboard.py:21`. -/
def rotation_speed : ℤ := 30

/-- The value `start_movement` assigns to `self.add_movement` for each
movement type (`test_keyboard.py:169,183,193`): `True` for move and lift,
`False` for rotate. -/
def addFlagFor : MovementType → Bool
  | .rotate => false
  | _ => true

/-- The `send_rc_control` command issued by `start_movement` for a given
movement type and direction (`test_keyboard.py:172-199`); `none` when no
branch matches, in which case the Python code sends nothing. -/
def rcFor : MovementType → Direction → Option Cmd
  | .move, .forward => some (.rc 0 movement_speed 0 0)
  | .move, .backward => some (.rc 0 (-movement_speed) 0 0)
  | .move, .left => some (.rc (-movement_speed) 0 0 0)
  | .move, .right => some (.rc movement_speed 0 0 0)
  | .lift, .up => some (.rc 0 0 movement_speed 0)
  | .lift, .down => some (.rc 0 0 (-movement_speed) 0)
  | .rotate, .anticlockwise => some (.rc 0 0 0 (-rotation_speed))
  | .rotate, .clockwise => some (.rc 0 0 0 rotation_speed)
  | _, _ => none

/-- The telemetry queries issued by `get_drone_state`
(`test_keyboard.py:97,120,130`): attitude, height, battery. -/
def get_drone_state_cmds : List Cmd :=
  [.query "attitude?", .query "height?", .query "battery?"]

/-- `start_movement(direction, movement_type)` (`test_keyboard.py:142-206`).
Environment inputs: `yaw` is the (already defaulted) yaw obtained from
`get_drone_state`, `now` the clock reading, `sendOk` whether the
`send_rc_control` call succeeds (on an exception the handler at lines
202-206 clears `current_movement`).  Returns the new state and the list of
commands put on the wire. -/
def start_movement (dir : Direction) (mtype : MovementType) (yaw : ℤ)
    (now : ℚ) (sendOk : Bool) (s : ControllerState) :
    ControllerState × List Cmd :=
  match s.current_movement with
  | some _ => (s, [])
  | none =>
    let m : Movement := ⟨mtype, dir, now, yaw⟩
    let s1 := { s with current_movement := some m,
                       add_movement := addFlagFor mtype }
    match rcFor mtype dir with
    | none => (s1, get_drone_state_cmds)
    | some c =>
      if sendOk then (s1, get_drone_state_cmds ++ [c])
      else ({ s1 with current_movement := none }, get_drone_state_cmds)

/-- Round half to even on a rational, the idealization of Python's `round`
on the scaled value. -/
def roundHalfEven (x : ℚ) : ℤ :=
  let f := ⌊x⌋
  let r := x - f
  if r < 1 / 2 then f
  else if 1 / 2 < r then f + 1
  else if f % 2 = 0 then f else f + 1

/-- Python's `round(x, 2)` (`test_keyboard.py:242`), idealized over ℚ. -/
def round2 (x : ℚ) : ℚ := (roundHalfEven (100 * x) : ℚ) / 100

/-- `stop_movement()` (`test_keyboard.py:208-253`).  Environment inputs:
`now` is the clock reading taken at line 231, `freshId` the uuid generated
at line 239, `ts` the timestamp of line 244.  The halt command's own failure
is caught and changes nothing (lines 216-219, 225-228), so it needs no
success flag. -/
def stop_movement (now : ℚ) (freshId : String) (ts : String)
    (s : ControllerState) : ControllerState × List Cmd :=
  match s.current_movement with
  | none => (s, [])
  | some m =>
    if s.add_movement = false then
      ({ s with current_movement := none }, [.rc 0 0 0 0])
    else
      let duration := now - m.start_time
      let distance := round2 ((movement_speed : ℚ) * duration)
      let ev : MovementEvent :=
        ⟨freshId, m.type, m.direction, distance, m.start_yaw, ts⟩
      ({ s with
          current_waypoint_movements := s.current_waypoint_movements ++ [ev],
          current_movement := none },
       [.rc 0 0 0 0])

/-- Zero-padded three-digit formatting of the waypoint counter, Python's
`f"WP_{counter:03d}"` (`test_keyboard.py:263`). -/
def pad3 (n : Nat) : String :=
  if n < 10 then "00" ++ toString n
  else if n < 100 then "0" ++ toString n
  else toString n

/-- `mark_waypoint(name, auto_generated)` (`test_keyboard.py:255-277`).
`nameArg` is the `name` argument with `""` standing for Python's falsy
`None`; `typed` is the stripped result of the interactive `input()` prompt
(consulted only on the non-auto, empty-name path). -/
def mark_waypoint (nameArg : String) (auto : Bool) (typed : String)
    (s : ControllerState) : ControllerState :=
  let name1 :=
    if ¬auto ∧ nameArg = "" then
      if typed = "" then "Waypoint_" ++ toString (s.waypoint_counter + 1)
      else typed
    else nameArg
  let counter := s.waypoint_counter + 1
  let wpId := "WP_" ++ pad3 counter
  let finalName :=
    if name1 = "" then "Waypoint_" ++ toString counter else name1
  { s with
      waypoint_counter := counter,
      waypoints := s.waypoints ++ [⟨wpId, finalName,
        s.current_waypoint_movements⟩],
      current_waypoint_movements := [] }

/-- The recorder state built by `__init__` (`test_keyboard.py:24-31`). -/
def initState : ControllerState := ⟨none, false, [], [], 0⟩

/-- The state right after a successful `takeoff()`
(`test_keyboard.py:59-77`): takeoff immediately marks the starting waypoint
via `mark_waypoint("START", auto_generated=True)`. -/
def takeoffState : ControllerState := mark_waypoint "START" true "" initState

/-- A record of the persisted document, as written by `save_to_json`
(`test_keyboard.py:304-323`): a move record keeps id, type, resolved yaw,
distance and timestamp; everything else is persisted with id, type,
direction, distance and timestamp. -/
inductive ProcessedRecord where
  | moveRec (id : String) (yaw : ℤ) (distance : ℚ) (timestamp : String)
  | liftRec (id : String) (type : MovementType) (direction : Direction)
      (distance : ℚ) (timestamp : String)
deriving DecidableEq

/-- The yaw offset added by `save_to_json` for each move direction
(`test_keyboard.py:289-296`); an unmatched direction adds nothing. -/
def offset : Direction → ℤ
  | .forward => 0
  | .backward => 180
  | .left => -90
  | .right => 90
  | _ => 0

/-- The yaw normalization of `save_to_json` (`test_keyboard.py:299-302`):
subtract 360 above 180, add 360 below −180. -/
def normalizeYaw (y : ℤ) : ℤ :=
  if y > 180 then y - 360
  else if y < -180 then y + 360
  else y

/-- Processing of one recorded movement by `save_to_json`
(`test_keyboard.py:286-323`). -/
def processMovement (m : MovementEvent) : ProcessedRecord :=
  match m.type with
  | .move =>
    .moveRec m.id (normalizeYaw (m.start_yaw + offset m.direction))
      m.distance m.timestamp
  | t => .liftRec m.id t m.direction m.distance m.timestamp

/-- A waypoint of the persisted document (`test_keyboard.py:325-329`). -/
structure ProcessedWaypoint where
  id : String
  name : String
  movements_to_here : List ProcessedRecord
deriving DecidableEq

/-- `save_to_json`'s per-waypoint processing (`test_keyboard.py:282-331`). -/
def processWaypoint (wp : Waypoint) : ProcessedWaypoint :=
  ⟨wp.id, wp.name, wp.movements_to_here.map processMovement⟩

/-- The `session_info` header of the persisted document
(`test_keyboard.py:334-337`). -/
structure SessionInfo where
  total_waypoints : Nat
  total_movements : Nat
deriving DecidableEq

/-- The full persisted document (`test_keyboard.py:333-339`). -/
structure SessionDoc where
  session_info : SessionInfo
  waypoints : List ProcessedWaypoint
deriving DecidableEq

/-- The document `save_to_json` assembles from the recorder's waypoint list
(`test_keyboard.py:279-339`): the summary counts are computed from the raw
waypoints, the serialized waypoints are the processed ones. -/
def saveData (wps : List Waypoint) : SessionDoc :=
  { session_info :=
      { total_waypoints := wps.length,
        total_movements :=
          (wps.map (fun wp => wp.movements_to_here.length)).sum },
    waypoints := wps.map processWaypoint }

/-- Outcome of the file write attempted by `save_to_json`
(`test_keyboard.py:341-346`): opening the destination may fail, `json.dump`
may fail after `k` chunks were already written, or everything succeeds. -/
inductive WriteOutcome where
  | openFail
  | dumpFail (k : Nat)
  | ok
deriving DecidableEq

/-- Abstract state of the destination file: absent, holding a complete
serialized document, or holding the first `k` chunks of one (an interrupted
write after `open(..., 'w')` truncated the file). -/
inductive FileState where
  | absent
  | complete (d : SessionDoc)
  | incomplete (d : SessionDoc) (k : Nat)
deriving DecidableEq

/-- The file write of `save_to_json` (`test_keyboard.py:341-346`):
`open(self.data_file, 'w')` truncates, then `json.dump` writes the document
incrementally; any exception is caught and only printed.  Returns the new
file state and whether the error message was printed. -/
def save_write (doc : SessionDoc) (out : WriteOutcome) (f : FileState) :
    FileState × Bool :=
  match out with
  | .openFail => (f, true)
  | .dumpFail k => (.incomplete doc k, true)
  | .ok => (.complete doc, false)

/-- `save_to_json()` end to end (`test_keyboard.py:279-346`): assemble the
document from the recorder's waypoints and attempt the file write. -/
def save_to_json (s : ControllerState) (out : WriteOutcome) (f : FileState) :
    FileState × Bool :=
  save_write (saveData s.waypoints) out f

/-- Whether the destination holds a partly-written document. -/
def isIncompleteFile : FileState → Bool
  | .incomplete _ _ => true
  | _ => false

/-- One recorder action of the capture loop (`handle_keypress` and the
cleanup path of `run`, `test_keyboard.py:354-508`), with its environment
inputs. -/
inductive Action where
  | startM (dir : Direction) (mtype : MovementType) (yaw : ℤ) (now : ℚ)
      (sendOk : Bool)
  | stopM (now : ℚ) (freshId : String) (ts : String)
  | markW (nameArg : String) (auto : Bool) (typed : String)

/-- The state transition of one recorder action. -/
def step (a : Action) (s : ControllerState) : ControllerState :=
  match a with
  | .startM d t y n ok => (start_movement d t y n ok s).1
  | .stopM n i ts => (stop_movement n i ts s).1
  | .markW n auto typed => mark_waypoint n auto typed s

/-- Run a list of recorder actions from a state. -/
def runActions (acts : List Action) (s : ControllerState) : ControllerState :=
  acts.foldl (fun st a => step a st) s

/-- The flag/slot invariant the controller maintains: whenever a movement is
active, `add_movement` holds the value `start_movement` assigned for its
type (`False` exactly for rotations). -/
def flagInvB (s : ControllerState) : Bool :=
  match s.current_movement with
  | none => true
  | some m => s.add_movement == addFlagFor m.type

/-- Modelled from the spec: the Replayer/Inverter lives in
`waypoint_navigation.py`, which is absent from the sources; only its caller
`navigation_interface.py` is present.  Backward-traversal inversion of a
Move: "heading += 180°, normalized into (−180,180]". -/
def invertYaw (h : ℤ) : ℤ := normalizeYaw (h + 180)

/-- Modelled from the spec: backward-traversal inversion of a Lift flips
the direction, "up↔down". -/
def flipDirection : Direction → Direction
  | .up => .down
  | .down => .up
  | d => d

/-- Modelled from the spec: inversion of one persisted event for backward
traversal — a Move gets its heading turned by 180° (normalized), a Lift its
direction flipped; distance is unchanged. -/
def invertRecord : ProcessedRecord → ProcessedRecord
  | .moveRec id yaw dist ts => .moveRec id (invertYaw yaw) dist ts
  | .liftRec id t d dist ts => .liftRec id t (flipDirection d) dist ts

/-- The distance field of a persisted record. -/
def recordDistance : ProcessedRecord → ℚ
  | .moveRec _ _ dist _ => dist
  | .liftRec _ _ _ dist _ => dist

/-- Well-formedness of a persisted record per the spec's data model: a Move
heading lies in (−180,180], a Lift direction is up or down. -/
def wfRecord : ProcessedRecord → Prop
  | .moveRec _ yaw _ _ => -180 < yaw ∧ yaw ≤ 180
  | .liftRec _ _ d _ _ => d = .up ∨ d = .down

/-- A reachable state with an active translation (forward move started from
the takeoff state). -/
def busyMoveState : ControllerState :=
  (start_movement .forward .move 10 0 true takeoffState).1

/-- A reachable state with an active rotation (clockwise rotation started
from the takeoff state). -/
def rotState : ControllerState :=
  (start_movement .clockwise .rotate 0 0 true takeoffState).1

/-! ## Helper lemmas -/

lemma start_movement_waypoints_eq (d : Direction) (t : MovementType) (y : ℤ)
    (n : ℚ) (ok : Bool) (s : ControllerState) :
    (start_movement d t y n ok s).1.waypoints = s.waypoints := by
  cases hcm : s.current_movement with
  | some m => simp [start_movement, hcm]
  | none =>
    cases hc : rcFor t d with
    | none => simp [start_movement, hcm, hc]
    | some c => cases ok <;> simp [start_movement, hcm, hc]

lemma stop_movement_waypoints_eq (n : ℚ) (i ts : String)
    (s : ControllerState) :
    (stop_movement n i ts s).1.waypoints = s.waypoints := by
  cases hcm : s.current_movement with
  | none => simp [stop_movement, hcm]
  | some m =>
    by_cases h : s.add_movement = false <;> simp [stop_movement, hcm, h]

lemma step_preserves_head (a : Action) (s : ControllerState) (w : Waypoint)
    (h : s.waypoints.head? = some w) : (step a s).waypoints.head? = some w := by
  cases a with
  | startM d t y n ok =>
    simpa [step, start_movement_waypoints_eq] using h
  | stopM n i ts =>
    simpa [step, stop_movement_waypoints_eq] using h
  | markW nameArg auto typed =>
    cases hw : s.waypoints with
    | nil => rw [hw] at h; simp at h
    | cons w0 rest =>
      rw [hw] at h
      simp only [List.head?_cons, Option.some.injEq] at h
      subst h
      simp [step, mark_waypoint, hw]

lemma flagInvB_start (d : Direction) (t : MovementType) (y : ℤ) (n : ℚ)
    (ok : Bool) (s : ControllerState) (h : flagInvB s = true) :
    flagInvB (start_movement d t y n ok s).1 = true := by
  cases hcm : s.current_movement with
  | some m => simpa [start_movement, hcm] using h
  | none =>
    cases hc : rcFor t d with
    | none => simp [start_movement, hcm, hc, flagInvB]
    | some c => cases ok <;> simp [start_movement, hcm, hc, flagInvB]

lemma flagInvB_stop (n : ℚ) (i ts : String) (s : ControllerState)
    (h : flagInvB s = true) : flagInvB (stop_movement n i ts s).1 = true := by
  cases hcm : s.current_movement with
  | none => simpa [stop_movement, hcm] using h
  | some m =>
    by_cases hb : s.add_movement = false <;>
      simp [stop_movement, hcm, hb, flagInvB]

lemma flagInvB_step (a : Action) (s : ControllerState)
    (h : flagInvB s = true) : flagInvB (step a s) = true := by
  cases a with
  | startM d t y n ok => exact flagInvB_start d t y n ok s h
  | stopM n i ts => exact flagInvB_stop n i ts s h
  | markW nameArg auto typed => simpa [step, mark_waypoint, flagInvB] using h

lemma flagInvB_runActions (acts : List Action) (s : ControllerState)
    (h : flagInvB s = true) : flagInvB (runActions acts s) = true := by
  induction acts generalizing s with
  | nil => simpa [runActions] using h
  | cons a rest ih =>
    simpa [runActions, List.foldl_cons] using ih (step a s) (flagInvB_step a s h)

lemma normalizeYaw_bounds (y : ℤ) (h1 : -360 ≤ y) (h2 : y ≤ 360) :
    -180 ≤ normalizeYaw y ∧ normalizeYaw y ≤ 180 := by
  unfold normalizeYaw
  split_ifs <;> omega

/-! ## Claim theorems -/

/-- C1 counterexample: the claim asserts the persisted resultant heading of
a Move always lies in the half-open interval (−180,180].  At start heading
−180 (allowed by the claim's own range [−180,180]) and direction forward,
`save_to_json` persists yaw −180, which is not in (−180,180]. -/
theorem c1_counterexample :
    processMovement ⟨"e0", .move, .forward, 50, -180, "t0"⟩ =
      .moveRec "e0" (-180) 50 "t0" ∧ ¬(-180 < (-180 : ℤ)) := by
  constructor
  · rfl
  · decide

/-- C1 (amended): for every recorded Move event with start heading in
[−180,180] and direction among forward/backward/left/right, the persisted
resultant heading equals start heading + offset(direction) — with
offset(forward)=0, offset(backward)=180, offset(left)=−90, offset(right)=90
— adjusted by ±360 when out of range, and the resultant heading lies in the
closed interval [−180,180]. -/
theorem c1_move_yaw_encoding (e : MovementEvent) (ht : e.type = .move)
    (h1 : -180 ≤ e.start_yaw) (h2 : e.start_yaw ≤ 180)
    (hd : e.direction = .forward ∨ e.direction = .backward ∨
      e.direction = .left ∨ e.direction = .right) :
    processMovement e =
      .moveRec e.id (normalizeYaw (e.start_yaw + offset e.direction))
        e.distance e.timestamp ∧
    offset .forward = 0 ∧ offset .backward = 180 ∧
    offset .left = -90 ∧ offset .right = 90 ∧
    -180 ≤ normalizeYaw (e.start_yaw + offset e.direction) ∧
    normalizeYaw (e.start_yaw + offset e.direction) ≤ 180 := by
  obtain ⟨id, ty, dir, dist, sy, ts⟩ := e
  simp only at ht h1 h2 hd
  subst ht
  refine ⟨rfl, rfl, rfl, rfl, rfl, ?_⟩
  have hoff : -180 ≤ offset dir ∧ offset dir ≤ 180 := by
    rcases hd with h | h | h | h <;> subst h <;> simp [offset]
  exact normalizeYaw_bounds (sy + offset dir) (by omega) (by omega)

/-- C1 witness: the amended theorem applied to a concrete Move event with
start heading −90 and direction left (whose resultant heading is the
boundary value −180). -/
theorem c1_witness :
    processMovement ⟨"w1", .move, .left, 10, -90, "t1"⟩ =
      .moveRec "w1"
        (normalizeYaw ((-90 : ℤ) + offset .left)) 10 "t1" ∧
    offset .forward = 0 ∧ offset .backward = 180 ∧
    offset .left = -90 ∧ offset .right = 90 ∧
    -180 ≤ normalizeYaw ((-90 : ℤ) + offset .left) ∧
    normalizeYaw ((-90 : ℤ) + offset .left) ≤ 180 :=
  c1_move_yaw_encoding ⟨"w1", .move, .left, 10, -90, "t1"⟩ rfl
    (by decide) (by decide) (Or.inr (Or.inr (Or.inl rfl)))

/-- C5: each persisted Move record consists exactly of id, type, yaw,
distance and timestamp (the original direction and start heading are
discarded: two Move events agreeing on those persisted fields serialize
identically even when their directions and start headings differ); each
persisted Lift record consists exactly of id, type, direction, distance and
timestamp, with direction and distance unchanged from the recorded event. -/
theorem c5_persisted_record_fields :
    (∀ e : MovementEvent, e.type = .move →
      processMovement e =
        .moveRec e.id (normalizeYaw (e.start_yaw + offset e.direction))
          e.distance e.timestamp) ∧
    (∀ e : MovementEvent, e.type = .lift →
      processMovement e =
        .liftRec e.id .lift e.direction e.distance e.timestamp) ∧
    (∀ e1 e2 : MovementEvent, e1.type = .move → e2.type = .move →
      e1.id = e2.id → e1.distance = e2.distance →
      e1.timestamp = e2.timestamp →
      normalizeYaw (e1.start_yaw + offset e1.direction) =
        normalizeYaw (e2.start_yaw + offset e2.direction) →
      processMovement e1 = processMovement e2) := by
  refine ⟨?_, ?_, ?_⟩
  · intro e ht
    obtain ⟨id, ty, dir, dist, sy, ts⟩ := e
    simp only at ht
    subst ht
    rfl
  · intro e ht
    obtain ⟨id, ty, dir, dist, sy, ts⟩ := e
    simp only at ht
    subst ht
    rfl
  · intro e1 e2 h1 h2 hid hdist hts hyaw
    obtain ⟨id1, ty1, dir1, dist1, sy1, ts1⟩ := e1
    obtain ⟨id2, ty2, dir2, dist2, sy2, ts2⟩ := e2
    simp only at h1 h2 hid hdist hts hyaw
    subst h1; subst h2
    simp [processMovement, hid, hdist, hts, hyaw]

/-- C5 witness: the theorem applied to concrete events — a Move, a Lift,
and two Moves that differ only in direction and start heading but share the
resultant heading and hence the persisted record. -/
theorem c5_witness :
    processMovement ⟨"m1", .move, .forward, 50, 90, "ta"⟩ =
      .moveRec "m1"
        (normalizeYaw ((90 : ℤ) + offset .forward)) 50 "ta" ∧
    processMovement ⟨"l1", .lift, .up, 20, 0, "tb"⟩ =
      .liftRec "l1" .lift .up 20 "tb" ∧
    processMovement ⟨"m2", .move, .forward, 30, 90, "tc"⟩ =
      processMovement ⟨"m2", .move, .right, 30, 0, "tc"⟩ :=
  ⟨c5_persisted_record_fields.1 ⟨"m1", .move, .forward, 50, 90, "ta"⟩ rfl,
   c5_persisted_record_fields.2.1 ⟨"l1", .lift, .up, 20, 0, "tb"⟩ rfl,
   c5_persisted_record_fields.2.2 ⟨"m2", .move, .forward, 30, 90, "tc"⟩
     ⟨"m2", .move, .right, 30, 0, "tc"⟩ rfl rfl rfl rfl rfl (by decide)⟩

/-- C7 (spec-modelled, the Replayer/Inverter source file is absent):
backward-traversal inversion is an involution — on a well-formed Move
record (heading in (−180,180]) inverting twice restores the original
heading, on a well-formed Lift record (direction up or down) flipping twice
restores the original direction, and a single inversion never changes the
distance. -/
theorem c7_inversion_involution (r : ProcessedRecord) (h : wfRecord r) :
    invertRecord (invertRecord r) = r ∧
    recordDistance (invertRecord r) = recordDistance r := by
  cases r with
  | moveRec id yaw dist ts =>
    obtain ⟨h1, h2⟩ := h
    refine ⟨?_, rfl⟩
    simp only [invertRecord, invertYaw, ProcessedRecord.moveRec.injEq,
      and_true, true_and]
    unfold normalizeYaw
    split_ifs <;> omega
  | liftRec id t d dist ts =>
    rcases h with h | h <;> subst h <;> exact ⟨rfl, rfl⟩

/-- C7 witness: the involution applied to a concrete Move record at the
boundary heading 180 and to a concrete Lift record going up. -/
theorem c7_witness :
    (invertRecord (invertRecord (.moveRec "a" 180 50 "t")) =
        .moveRec "a" 180 50 "t" ∧
      recordDistance (invertRecord (.moveRec "a" 180 50 "t")) =
        recordDistance (.moveRec "a" 180 50 "t")) ∧
    (invertRecord (invertRecord (.liftRec "b" .lift .up 20 "u")) =
        .liftRec "b" .lift .up 20 "u" ∧
      recordDistance (invertRecord (.liftRec "b" .lift .up 20 "u")) =
        recordDistance (.liftRec "b" .lift .up 20 "u")) :=
  ⟨c7_inversion_involution (.moveRec "a" 180 50 "t") (by constructor <;> decide),
   c7_inversion_involution (.liftRec "b" .lift .up 20 "u") (Or.inl rfl)⟩

/-- C8: in every serialized session document, `total_movements` equals the
sum of the lengths of all serialized waypoints' movement lists, and
`total_waypoints` equals the number of serialized waypoints. -/
theorem c8_session_counts (wps : List Waypoint) :
    (saveData wps).session_info.total_waypoints =
      (saveData wps).waypoints.length ∧
    (saveData wps).session_info.total_movements =
      ((saveData wps).waypoints.map
        (fun w => w.movements_to_here.length)).sum := by
  constructor
  · simp [saveData]
  · simp only [saveData, List.map_map]
    induction wps with
    | nil => rfl
    | cons wp rest ih => simp [Function.comp, processWaypoint, ih]

/-- C2: when a movement is already active, `start_movement` is a no-op
apart from the printed warning — the returned state is the input state
unchanged (same active-movement slot, same pending cluster, same
waypoints), and no command at all goes on the wire (in particular the
heading is not sampled: no telemetry query is issued). -/
theorem c2_start_noop_when_active (s : ControllerState) (m : Movement)
    (dir : Direction) (mtype : MovementType) (yaw : ℤ) (now : ℚ)
    (sendOk : Bool) (h : s.current_movement = some m) :
    start_movement dir mtype yaw now sendOk s = (s, []) := by
  simp [start_movement, h]

/-- C2 witness: starting a backward move while a forward move is active in
the reachable state `busyMoveState` changes nothing and sends nothing. -/
theorem c2_witness :
    start_movement .backward .move 5 7 true busyMoveState =
      (busyMoveState, []) :=
  c2_start_noop_when_active busyMoveState ⟨.move, .forward, 0, 10⟩
    .backward .move 5 7 true (by decide)

/-- C3: a `stop_movement` call whose active movement is a rotation (in any
state satisfying the controller's flag/slot invariant) discards it: the
slot is cleared, the halt command `send_rc_control(0,0,0,0)` is sent, and
the pending cluster — along with the journaled waypoints — is untouched, so
no MovementEvent for the rotation is ever appended. -/
theorem c3_stop_discards_rotation (s : ControllerState) (m : Movement)
    (now : ℚ) (freshId ts : String) (hInv : flagInvB s = true)
    (hm : s.current_movement = some m) (ht : m.type = .rotate) :
    stop_movement now freshId ts s =
      ({ s with current_movement := none }, [.rc 0 0 0 0]) := by
  have h2 : s.add_movement = addFlagFor m.type := by
    have h3 := hInv
    unfold flagInvB at h3
    rw [hm] at h3
    simpa using h3
  have hadd : s.add_movement = false := by rw [h2, ht]; rfl
  simp [stop_movement, hm, hadd]

/-- C3 witness: stopping in the reachable state `rotState` (a clockwise
rotation active right after takeoff) clears the slot, halts, and journals
nothing. -/
theorem c3_witness :
    stop_movement 1 "u" "t" rotState =
      ({ rotState with current_movement := none }, [.rc 0 0 0 0]) :=
  c3_stop_discards_rotation rotState ⟨.rotate, .clockwise, 0, 0⟩ 1 "u" "t"
    (by decide) (by decide) rfl

/-- C4: `stop_movement` is a no-op when no movement is active; for an
active Move or Lift (in any state satisfying the flag/slot invariant) it
halts the vehicle, appends exactly one new MovementEvent — the fresh id,
the movement's kind and direction, distance = movement speed × elapsed
duration rounded to 2 decimals, the recorded start heading and the
timestamp — to the pending cluster, and clears the active-movement slot. -/
theorem c4_stop_records_move_lift :
    (∀ (now : ℚ) (freshId ts : String) (s : ControllerState),
      s.current_movement = none →
      stop_movement now freshId ts s = (s, [])) ∧
    (∀ (s : ControllerState) (m : Movement) (now : ℚ) (freshId ts : String),
      flagInvB s = true → s.current_movement = some m → m.type ≠ .rotate →
      stop_movement now freshId ts s =
        ({ s with
            current_waypoint_movements := s.current_waypoint_movements ++
              [⟨freshId, m.type, m.direction,
                round2 ((movement_speed : ℚ) * (now - m.start_time)),
                m.start_yaw, ts⟩],
            current_movement := none },
         [.rc 0 0 0 0])) := by
  constructor
  · intro now freshId ts s h
    simp [stop_movement, h]
  · intro s m now freshId ts hInv hm ht
    have h2 : s.add_movement = addFlagFor m.type := by
      have h3 := hInv
      unfold flagInvB at h3
      rw [hm] at h3
      simpa using h3
    have hadd : s.add_movement = true := by
      cases htm : m.type with
      | rotate => exact absurd htm ht
      | move => rw [h2, htm]; rfl
      | lift => rw [h2, htm]; rfl
    simp [stop_movement, hm, hadd]

/-- C4 witness: stopping in the idle takeoff state changes nothing;
stopping the forward move of `busyMoveState` at clock time 2 journals one
event of distance `round2 (30 × 2) = 60` and clears the slot. -/
theorem c4_witness :
    stop_movement 1 "u0" "t0" takeoffState = (takeoffState, []) ∧
    stop_movement 2 "u1" "t1" busyMoveState =
      ({ busyMoveState with
          current_waypoint_movements :=
            busyMoveState.current_waypoint_movements ++
              [⟨"u1", .move, .forward,
                round2 ((movement_speed : ℚ) * (2 - 0)), 10, "t1"⟩],
          current_movement := none },
       [.rc 0 0 0 0]) :=
  ⟨c4_stop_records_move_lift.1 1 "u0" "t0" takeoffState (by decide),
   c4_stop_records_move_lift.2 busyMoveState ⟨.move, .forward, 0, 10⟩ 2
     "u1" "t1" (by decide) (by decide) (by decide)⟩

/-- C10: a `start_movement` call from the idle state whose velocity command
raises an exception restores the recorder: the active-movement slot is back
to idle, and the pending cluster, the journaled waypoints and the waypoint
counter are unchanged — no event is ever recorded for the failed start. -/
theorem c10_failed_start_restores (s : ControllerState) (dir : Direction)
    (mtype : MovementType) (yaw : ℤ) (now : ℚ) (c : Cmd)
    (hidle : s.current_movement = none) (hc : rcFor mtype dir = some c) :
    (start_movement dir mtype yaw now false s).1.current_movement = none ∧
    (start_movement dir mtype yaw now false s).1.current_waypoint_movements =
      s.current_waypoint_movements ∧
    (start_movement dir mtype yaw now false s).1.waypoints = s.waypoints ∧
    (start_movement dir mtype yaw now false s).1.waypoint_counter =
      s.waypoint_counter := by
  simp [start_movement, hidle, hc]

/-- C10 witness: a forward move started from the takeoff state whose
`send_rc_control` raises leaves the recorder idle with the pending cluster,
waypoints and counter untouched. -/
theorem c10_witness :
    (start_movement .forward .move 0 0 false takeoffState).1.current_movement
      = none ∧
    (start_movement .forward .move 0 0 false
      takeoffState).1.current_waypoint_movements =
      takeoffState.current_waypoint_movements ∧
    (start_movement .forward .move 0 0 false takeoffState).1.waypoints =
      takeoffState.waypoints ∧
    (start_movement .forward .move 0 0 false takeoffState).1.waypoint_counter
      = takeoffState.waypoint_counter :=
  c10_failed_start_restores takeoffState .forward .move 0 0
    (.rc 0 movement_speed 0 0) (by decide) (by decide)

/-- C9: in every session, the first waypoint is the one created immediately
after a successful takeoff — id `WP_001`, the fixed origin name `START`,
and an empty movement list — and it stays first under any sequence of
recorder actions, so no movement event can precede it. -/
theorem c9_first_waypoint_origin (acts : List Action) :
    ((runActions acts takeoffState).waypoints).head? =
      some ⟨"WP_001", "START", []⟩ := by
  have key : ∀ (l : List Action) (s : ControllerState),
      s.waypoints.head? = some ⟨"WP_001", "START", []⟩ →
      ((runActions l s).waypoints).head? = some ⟨"WP_001", "START", []⟩ := by
    intro l
    induction l with
    | nil => intro s h; simpa [runActions] using h
    | cons a rest ih =>
      intro s h
      have h1 := step_preserves_head a s ⟨"WP_001", "START", []⟩ h
      simpa [runActions, List.foldl_cons] using ih (step a s) h1
  exact key acts takeoffState (by decide)

/-- C6 counterexample: the claim asserts the write is all-or-nothing.  With
a write failure after one chunk (`json.dump` raising after `open(..., 'w')`
truncated the destination), `save_to_json` leaves a partly-written file —
neither the prior content nor the complete document — and only prints the
error. -/
theorem c6_counterexample :
    save_to_json takeoffState (.dumpFail 1) (.complete (saveData [])) =
      (.incomplete (saveData takeoffState.waypoints) 1, true) ∧
    isIncompleteFile
      (save_to_json takeoffState (.dumpFail 1)
        (.complete (saveData []))).1 = true ∧
    (save_to_json takeoffState (.dumpFail 1)
        (.complete (saveData []))).1 ≠ .complete (saveData []) ∧
    (save_to_json takeoffState (.dumpFail 1)
        (.complete (saveData []))).1 ≠
      .complete (saveData takeoffState.waypoints) := by
  refine ⟨rfl, rfl, ?_, ?_⟩ <;> decide

/-- C6 (amended): `save_to_json` serializes the ordered waypoint list with
its summary counts; on success it writes the complete document; a storage
failure is caught and only reported as a printed error (the caller gets no
explicit failure), and the write is not all-or-nothing — if opening the
destination fails the file is unchanged, but a failure during `json.dump`
leaves a partly-written file. -/
theorem c6_write_behavior (s : ControllerState) (f : FileState) :
    save_to_json s .ok f = (.complete (saveData s.waypoints), false) ∧
    save_to_json s .openFail f = (f, true) ∧
    (∀ k : Nat, save_to_json s (.dumpFail k) f =
      (.incomplete (saveData s.waypoints) k, true)) :=
  ⟨rfl, rfl, fun _ => rfl⟩

end DroneNav
